import Mathlib

/-!
Verification of the WindResarcherAI backend (FastAPI + SQLAlchemy + scraper)
against its natural-language specification.  The Python sources are shallowly
embedded: pure helpers become Lean functions, the database session becomes an
explicit `Store` value threaded through the handlers, and Python exceptions
become an explicit `Except PyExc` result.
-/

set_option maxHeartbeats 1000000

namespace WindResearcher

/-- Python exception values the embedded code can raise.  An exception that
escapes a FastAPI handler is surfaced as an HTTP 500; an `HTTPException`
carries its own status code. -/
inductive PyExc where
  | keyError (key : String)
  | attributeError (attr : String)
  | valueError
  | integrityError
  | httpException (code : Nat) (detail : String)
  deriving DecidableEq, Repr

/-- The HTTP status FastAPI reports when the given exception escapes a
handler: `HTTPException` keeps its code, every other exception becomes a
plain 500 internal server error. -/
def statusOf : PyExc → Nat
  | .httpException code _ => code
  | _ => 500

/-- Whether an escaping exception is surfaced as a 400-class (client-input)
error. -/
def isClientError (e : PyExc) : Bool :=
  400 ≤ statusOf e && statusOf e < 500

/-- Model of a CPython `datetime.datetime` value: calendar and clock fields
plus an optional UTC offset in minutes (`none` for a naive datetime). -/
structure PyDateTime where
  year : Nat
  month : Nat
  day : Nat
  hour : Nat := 0
  minute : Nat := 0
  second : Nat := 0
  microsecond : Nat := 0
  tzOffsetMinutes : Option Int := none
  deriving DecidableEq, Repr

/-- Decimal value of a digit character, `none` for non-digits. -/
def digitVal (c : Char) : Option Nat :=
  if c.isDigit then some (c.toNat - 48) else none

/-- Read exactly `n` decimal digits (continuing the accumulator `acc`),
returning the value and the remaining characters. -/
def readDigits : Nat → Nat → List Char → Option (Nat × List Char)
  | 0, acc, cs => some (acc, cs)
  | _ + 1, _, [] => none
  | n + 1, acc, c :: cs =>
    match digitVal c with
    | some d => readDigits n (acc * 10 + d) cs
    | none => none

def isLeapYear (y : Nat) : Bool :=
  y % 4 == 0 && (y % 100 != 0 || y % 400 == 0)

def daysInMonth (y m : Nat) : Nat :=
  if m = 2 then (if isLeapYear y then 29 else 28)
  else if m = 4 ∨ m = 6 ∨ m = 9 ∨ m = 11 then 30
  else 31

/-- The calendar validity check `datetime.datetime(y, m, d)` performs
(`MINYEAR = 1`, `MAXYEAR = 9999`). -/
def validYMD (y m d : Nat) : Bool :=
  1 ≤ y && y ≤ 9999 && 1 ≤ m && m ≤ 12 && 1 ≤ d && d ≤ daysInMonth y m

/-- Collect at most `n` leading digit characters. -/
def takeDigitsUpTo : Nat → List Char → (List Nat × List Char)
  | 0, cs => ([], cs)
  | _ + 1, [] => ([], [])
  | n + 1, c :: cs =>
    match digitVal c with
    | some d =>
      let r := takeDigitsUpTo n cs
      (d :: r.1, r.2)
    | none => ([], c :: cs)

/-- Fractional-second part of an ISO time: one to six digits, scaled to
microseconds; a seventh digit is an error. -/
def readMicro (cs : List Char) : Option (Nat × List Char) :=
  let r := takeDigitsUpTo 6 cs
  if r.1.length = 0 then none
  else
    match r.2 with
    | c :: _ => if (digitVal c).isSome then none
                else some (r.1.foldl (fun a d => a * 10 + d) 0 * 10 ^ (6 - r.1.length), r.2)
    | [] => some (r.1.foldl (fun a d => a * 10 + d) 0 * 10 ^ (6 - r.1.length), [])

/-- Optional trailing UTC offset `±HH:MM` (must consume the whole rest). -/
def parseOffsetEnd : List Char → Option (Option Int)
  | [] => some none
  | c :: cs =>
    if c = '+' ∨ c = '-' then
      match readDigits 2 0 cs with
      | some (oh, ':' :: cs2) =>
        match readDigits 2 0 cs2 with
        | some (om, []) =>
          if oh ≤ 23 && om ≤ 59 then
            some (some ((if c = '-' then (-1 : Int) else 1) * ((oh * 60 + om : Nat) : Int)))
          else none
        | _ => none
      | _ => none
    else none

/-- ISO time-of-day `HH[:MM[:SS[.f{1,6}]]]` followed by an optional offset;
must consume the whole rest of the string. -/
def parseTimeEnd (cs : List Char) : Option (Nat × Nat × Nat × Nat × Option Int) :=
  match readDigits 2 0 cs with
  | some (h, rest) =>
    if h ≤ 23 then
      match rest with
      | ':' :: r2 =>
        match readDigits 2 0 r2 with
        | some (mi, r3) =>
          if mi ≤ 59 then
            match r3 with
            | ':' :: r4 =>
              match readDigits 2 0 r4 with
              | some (se, r5) =>
                if se ≤ 59 then
                  match r5 with
                  | '.' :: r6 =>
                    match readMicro r6 with
                    | some (us, r7) => (parseOffsetEnd r7).map (fun tz => (h, mi, se, us, tz))
                    | none => none
                  | _ => (parseOffsetEnd r5).map (fun tz => (h, mi, se, 0, tz))
                else none
              | none => none
            | _ => (parseOffsetEnd r3).map (fun tz => (h, mi, 0, 0, tz))
          else none
        | none => none
      | _ => (parseOffsetEnd rest).map (fun tz => (h, 0, 0, 0, tz))
    else none
  | none => none

/-- Model of CPython `datetime.datetime.fromisoformat`, restricted to the
dashed calendar date `YYYY-MM-DD`, an arbitrary single separator character
(CPython takes whatever character sits between the date and the time), a
time `HH[:MM[:SS[.f{1,6}]]]`, and an optional `±HH:MM` offset.  CPython
accepts a few further shapes (compact digits, week dates); none of them are
produced by this repository's inputs of interest.  Any other input raises
`ValueError`. -/
def fromisoformat (s : String) : Except PyExc PyDateTime :=
  match readDigits 4 0 s.data with
  | some (y, '-' :: r1) =>
    match readDigits 2 0 r1 with
    | some (m, '-' :: r2) =>
      match readDigits 2 0 r2 with
      | some (d, r3) =>
        if validYMD y m d then
          match r3 with
          | [] => .ok { year := y, month := m, day := d }
          | _sep :: r4 =>
            match parseTimeEnd r4 with
            | some (h, mi, se, us, tz) =>
              .ok { year := y, month := m, day := d, hour := h, minute := mi,
                    second := se, microsecond := us, tzOffsetMinutes := tz }
            | none => .error .valueError
        else .error .valueError
      | _ => .error .valueError
    | _ => .error .valueError
  | _ => .error .valueError

/-- The alternatives the `_strptime` regex `(3[01]|[12]\d|0[1-9]|[1-9])` for
`%d` can match at the head of the input, most-greedy first, each with its
remainder. -/
def dayCands : List Char → List (Nat × List Char)
  | c1 :: c2 :: rest =>
    match digitVal c1, digitVal c2 with
    | some d1, some d2 =>
      let two := d1 * 10 + d2
      (if 1 ≤ two ∧ two ≤ 31 then [(two, rest)] else []) ++
        (if 1 ≤ d1 then [(d1, c2 :: rest)] else [])
    | some d1, _ => if 1 ≤ d1 then [(d1, c2 :: rest)] else []
    | none, _ => []
  | [c1] =>
    match digitVal c1 with
    | some d1 => if 1 ≤ d1 then [(d1, [])] else []
    | none => []
  | [] => []

/-- The alternatives the `_strptime` regex `(1[0-2]|0[1-9]|[1-9])` for `%m`
can match at the head of the input, most-greedy first. -/
def monthCands : List Char → List (Nat × List Char)
  | c1 :: c2 :: rest =>
    match digitVal c1, digitVal c2 with
    | some d1, some d2 =>
      let two := d1 * 10 + d2
      (if 1 ≤ two ∧ two ≤ 12 then [(two, rest)] else []) ++
        (if 1 ≤ d1 then [(d1, c2 :: rest)] else [])
    | some d1, _ => if 1 ≤ d1 then [(d1, c2 :: rest)] else []
    | none, _ => []
  | [c1] =>
    match digitVal c1 with
    | some d1 => if 1 ≤ d1 then [(d1, [])] else []
    | none => []
  | [] => []

/-- Try each numeric alternative in order, backtracking like the regex
engine: the first one whose continuation succeeds wins. -/
def tryCands {α : Type} (cands : List (Nat × List Char)) (k : Nat → List Char → Option α) :
    Option α :=
  match cands with
  | [] => none
  | (v, rest) :: more =>
    match k v rest with
    | some r => some r
    | none => tryCands more k

/-- Model of `datetime.datetime.strptime(s, "%d<sep>%m<sep>%Y")` for a fixed
separator character (`'-'` or `'.'` in the scraper). -/
def strptimeDMY (sep : Char) (s : String) : Except PyExc PyDateTime :=
  let r :=
    tryCands (dayCands s.data) (fun d r1 =>
      match r1 with
      | c1 :: r2 =>
        if c1 = sep then
          tryCands (monthCands r2) (fun m r3 =>
            match r3 with
            | c2 :: r4 =>
              if c2 = sep then
                match readDigits 4 0 r4 with
                | some (y, []) =>
                  if validYMD y m d then
                    some ({ year := y, month := m, day := d } : PyDateTime)
                  else none
                | _ => none
              else none
            | [] => none)
        else none
      | [] => none)
  match r with
  | some dt => .ok dt
  | none => .error .valueError

/-- Model of `datetime.datetime.strptime(s, "%Y-%m-%d")`. -/
def strptimeYMD (s : String) : Except PyExc PyDateTime :=
  let r :=
    match readDigits 4 0 s.data with
    | some (y, c1 :: r1) =>
      if c1 = '-' then
        tryCands (monthCands r1) (fun m r2 =>
          match r2 with
          | c2 :: r3 =>
            if c2 = '-' then
              tryCands (dayCands r3) (fun d r4 =>
                match r4 with
                | [] =>
                  if validYMD y m d then
                    some ({ year := y, month := m, day := d } : PyDateTime)
                  else none
                | _ => none)
            else none
          | [] => none)
      else none
    | _ => none
  match r with
  | some dt => .ok dt
  | none => .error .valueError

/-- `date_str.replace('Z', '+00:00')` as written in `_parse_date`: EVERY
occurrence of `'Z'` is replaced, not only a trailing one. -/
def replaceZchars : List Char → List Char
  | [] => []
  | c :: cs =>
    if c = 'Z' then '+' :: '0' :: '0' :: ':' :: '0' :: '0' :: replaceZchars cs
    else c :: replaceZchars cs

def replaceZ (s : String) : String := ⟨replaceZchars s.data⟩

/-- The replacement the specification describes: only a TRAILING literal
`'Z'` is replaced by `"+00:00"`.  Declared to compare the spec's wording
with the code; the code uses `replaceZ`. -/
def replaceTrailingZ (s : String) : String :=
  match s.data.getLast? with
  | some 'Z' => ⟨s.data.dropLast ++ ['+', '0', '0', ':', '0', '0']⟩
  | _ => s

/-- `WindFarmNewsScraper._parse_date`.  The argument may be `None`; Python's
`if not date_str` also catches the empty string.  Each parsing attempt is
wrapped in a bare `except`, so no exception escapes: the `Except` result
records the possibility, and the theorems show the error branch is never
produced. -/
def parse_date (date_str : Option String) : Except PyExc (Option PyDateTime) :=
  match date_str with
  | none => .ok none
  | some s =>
    if s = "" then .ok none
    else
      match fromisoformat (replaceZ s) with
      | .ok d => .ok (some d)
      | .error _ =>
        match strptimeYMD s with
        | .ok d => .ok (some d)
        | .error _ =>
          match strptimeDMY '-' s with
          | .ok d => .ok (some d)
          | .error _ =>
            match strptimeDMY '.' s with
            | .ok d => .ok (some d)
            | .error _ => .ok none

/-- The date parser as the specification words it (trailing-`Z` replacement
only); compared against `parse_date` to settle the wording. -/
def parse_date_spec (date_str : Option String) : Except PyExc (Option PyDateTime) :=
  match date_str with
  | none => .ok none
  | some s =>
    if s = "" then .ok none
    else
      match fromisoformat (replaceTrailingZ s) with
      | .ok d => .ok (some d)
      | .error _ =>
        match strptimeYMD s with
        | .ok d => .ok (some d)
        | .error _ =>
          match strptimeDMY '-' s with
          | .ok d => .ok (some d)
          | .error _ =>
            match strptimeDMY '.' s with
            | .ok d => .ok (some d)
            | .error _ => .ok none

/-- The value `_parse_date` returns to its callers (it never raises, so the
`Except` layer collapses). -/
def parse_date_fn (date_str : Option String) : Option PyDateTime :=
  match parse_date date_str with
  | .ok v => v
  | .error _ => none

/-! ## Scraper (`app/scraper.py`)

The HTML library's DOM traversal is out of scope; each site's page is
embedded as the list of element records its `find_all` query returns, and
each element record carries exactly the sub-elements and attributes the
extractor policy reads. -/

/-- Python `s.startswith(p)`. -/
def pyStartsWith (s p : String) : Bool :=
  p.data.isPrefixOf s.data

/-- An `<a>` tag as the extractors see it: `get('href')` may be absent,
`get_text(strip=True)` is always a string. -/
structure AnchorElem where
  href : Option String
  text : String
  deriving DecidableEq, Repr

/-- A heading tag (`<h2>`/`<h3>`): its stripped text and its first nested
anchor, if any. -/
structure HeadingElem where
  firstAnchor : Option AnchorElem
  text : String
  deriving DecidableEq, Repr

/-- A `<time>` tag: optional machine-readable `datetime` attribute and the
visible text. -/
structure TimeElem where
  datetimeAttr : Option String
  text : String
  deriving DecidableEq, Repr

/-- One `<article class="post">` element of the gramwzielone page:
`find('h2')`, `find('h3')`, the first `find('a')` anywhere in the article,
and `find('time')`. -/
structure GramItem where
  h2 : Option HeadingElem
  h3 : Option HeadingElem
  anchor : Option AnchorElem
  timeEl : Option TimeElem
  deriving DecidableEq, Repr

/-- One `<article>` element of the wysokienapiecie page:
`find('h2', class_='entry-title')`, the fallback `find('h2')`, and
`find('time')`.  The link is looked up INSIDE the chosen heading. -/
structure WysokieItem where
  entryTitleH2 : Option HeadingElem
  anyH2 : Option HeadingElem
  timeEl : Option TimeElem
  deriving DecidableEq, Repr

/-- One `<div class="news-item">` element of the wnp page: only its first
anchor is read. -/
structure WnpItem where
  anchor : Option AnchorElem
  deriving DecidableEq, Repr

/-- A raw scraped record as built by the extractors: the dict with keys
title/url/source/published_date/category.  `url` is whatever
`link_elem.get('href')` returned, so it can be `None`. -/
structure RawArticle where
  title : String
  url : Option String
  source : String
  published_date : Option PyDateTime
  category : String
  deriving DecidableEq, Repr

/-- Outcome of `requests.get` plus the `find_all` query: either the whole
fetch failed (network error, `raise_for_status` on a non-2xx reply, or the
10-second timeout), or it produced the list of matched elements. -/
inductive Fetch (ι : Type) where
  | fail
  | page (items : List ι)

/-- `date_elem.get('datetime') or date_elem.get_text(strip=True)` followed by
`_parse_date`: Python's `or` takes the text when the attribute is absent or
is the (falsy) empty string. -/
def timeElemDate (t : Option TimeElem) : Option PyDateTime :=
  match t with
  | none => none
  | some te =>
    let ds :=
      match te.datetimeAttr with
      | some d => if d = "" then te.text else d
      | none => te.text
    parse_date_fn (some ds)

/-- Body of the per-item `try` block in `scrape_gramwzielone`:
`find('h2') or find('h3')` for the title, the article's first anchor for the
link; nothing in this body can raise. -/
def gramItemValue (it : GramItem) : Except PyExc (Option RawArticle) :=
  let title_elem := match it.h2 with
    | some h => some h
    | none => it.h3
  match title_elem, it.anchor with
  | some t, some a =>
    .ok (some { title := t.text, url := a.href, source := "gramwzielone.pl",
                published_date := timeElemDate it.timeEl, category := "news" })
  | _, _ => .ok none

/-- Body of the per-item `try` block in `scrape_wysokienapiecie`: the heading
must be `class_='entry-title'` (with a plain `h2` fallback) and the link must
be nested inside that heading; nothing in this body can raise. -/
def wysokieItemValue (it : WysokieItem) : Except PyExc (Option RawArticle) :=
  let title_elem := match it.entryTitleH2 with
    | some h => some h
    | none => it.anyH2
  let link_elem := match title_elem with
    | some h => h.firstAnchor
    | none => none
  match link_elem with
  | some a =>
    .ok (some { title := a.text, url := a.href, source := "wysokienapiecie.pl",
                published_date := timeElemDate it.timeEl, category := "news" })
  | none => .ok none

/-- Body of the per-item `try` block in `scrape_wnp`.  When the anchor has no
`href`, `url.startswith('http')` is `None.startswith(...)` and raises
`AttributeError` (caught by the per-item `except`); a relative url gets the
base origin `https://www.wnp.pl` prepended. -/
def wnpItemValue (it : WnpItem) : Except PyExc (Option RawArticle) :=
  match it.anchor with
  | none => .ok none
  | some a =>
    match a.href with
    | none => .error (.attributeError "startswith")
    | some u =>
      let url := if pyStartsWith u "http" then u else "https://www.wnp.pl" ++ u
      .ok (some { title := a.text, url := some url, source := "wnp.pl",
                  published_date := none, category := "news" })

/-- The `for article in article_elements` loop shared by the three
extractors: a raised item is caught and skipped (`continue`), a non-matching
item appends nothing, a matching item is appended. -/
def extractLoop {ι : Type} (parse : ι → Except PyExc (Option RawArticle))
    (items : List ι) : List RawArticle :=
  items.foldl
    (fun acc it =>
      match parse it with
      | .ok (some r) => acc ++ [r]
      | .ok none => acc
      | .error _ => acc)
    []

/-- The value of one item after the try/skip policy, as an `Option`. -/
def itemKept {ι : Type} (parse : ι → Except PyExc (Option RawArticle)) (it : ι) :
    Option RawArticle :=
  match parse it with
  | .ok (some r) => some r
  | _ => none

/-- `WindFarmNewsScraper.scrape_gramwzielone`: the outer `try` turns a whole
fetch failure into the empty list; `find_all(..., limit=10)` caps the items
at ten. -/
def scrape_gramwzielone (f : Fetch GramItem) : List RawArticle :=
  match f with
  | .fail => []
  | .page items => extractLoop gramItemValue (items.take 10)

/-- `WindFarmNewsScraper.scrape_wysokienapiecie`. -/
def scrape_wysokienapiecie (f : Fetch WysokieItem) : List RawArticle :=
  match f with
  | .fail => []
  | .page items => extractLoop wysokieItemValue (items.take 10)

/-- `WindFarmNewsScraper.scrape_wnp`. -/
def scrape_wnp (f : Fetch WnpItem) : List RawArticle :=
  match f with
  | .fail => []
  | .page items => extractLoop wnpItemValue (items.take 10)

/-- `WindFarmNewsScraper.scrape_all`: the three extractors run in fixed
order and their results are concatenated. -/
def scrape_all (f1 : Fetch GramItem) (f2 : Fetch WysokieItem) (f3 : Fetch WnpItem) :
    List RawArticle :=
  scrape_gramwzielone f1 ++ scrape_wysokienapiecie f2 ++ scrape_wnp f3

/-! ## Persistence store (`app/models.py`)

The two tables become two lists; server-set timestamps take an explicit
`now : Nat` parameter; `Float` coordinate/capacity columns are modelled as
`Int` (no claim performs real-number arithmetic on them); surrogate ids are
handed out from per-table counters, mirroring the serial primary keys. -/

/-- Row of the `wind_farms` table. -/
structure WindFarm where
  id : Nat
  name : String
  location : String
  latitude : Int
  longitude : Int
  capacity_mw : Option Int
  status : Option String
  operator : Option String
  description : Option String
  created_at : Option Nat
  updated_at : Option Nat
  deriving DecidableEq, Repr

/-- Row of the `news_articles` table (`url` is NOT NULL and UNIQUE). -/
structure NewsArticle where
  id : Nat
  title : String
  url : String
  source : Option String
  published_date : Option PyDateTime
  content : Option String
  summary : Option String
  wind_farm_name : Option String
  location : Option String
  latitude : Option Int
  longitude : Option Int
  category : Option String
  scraped_at : Option Nat
  created_at : Option Nat
  deriving DecidableEq, Repr

/-- The committed database state. -/
structure Store where
  farms : List WindFarm
  articles : List NewsArticle
  nextFarmId : Nat
  nextArticleId : Nat
  deriving DecidableEq, Repr

def emptyStore : Store :=
  { farms := [], articles := [], nextFarmId := 1, nextArticleId := 1 }

/-- Serial primary keys: every existing row's id is below the counter. -/
def StoreWF (s : Store) : Prop :=
  ∀ f ∈ s.farms, f.id < s.nextFarmId

/-- A strictly monotone encoding of a (naive) timestamp, used only to
compare `published_date` values the way the database column does.  The UTC
offset is ignored: the column is `timestamp without time zone`. -/
def dateKey (d : PyDateTime) : Nat :=
  (((((d.year * 13 + d.month) * 32 + d.day) * 24 + d.hour) * 60 + d.minute) * 60 + d.second)
    * 1000000 + d.microsecond

def newsKey (a : NewsArticle) : Option Nat :=
  a.published_date.map dateKey

/-- PostgreSQL `ORDER BY published_date DESC` (the shipped engine is the
default `postgresql://...` URL): null sorts as LARGER than every value, so
`DESC` places nulls FIRST. -/
def pgDescGeB (a b : NewsArticle) : Bool :=
  match newsKey a, newsKey b with
  | none, _ => true
  | some _, none => false
  | some m, some n => n ≤ m

def pgDescGe (a b : NewsArticle) : Prop := pgDescGeB a b = true

instance : DecidableRel pgDescGe := fun a b =>
  inferInstanceAs (Decidable (pgDescGeB a b = true))

/-- The ordering the spec's words describe: descending by published date
with nulls/unknowns treated as EARLIEST (appearing last). -/
def specDescGeB (a b : NewsArticle) : Bool :=
  match newsKey a, newsKey b with
  | none, none => true
  | none, some _ => false
  | some _, none => true
  | some m, some n => n ≤ m

def specDescGe (a b : NewsArticle) : Prop := specDescGeB a b = true

instance : DecidableRel specDescGe := fun a b =>
  inferInstanceAs (Decidable (specDescGeB a b = true))

/-- `if category:` — the filter is applied only for a truthy (non-null,
non-empty) value. -/
def catFilter (category : Option String) (l : List NewsArticle) : List NewsArticle :=
  match category with
  | some c => if c = "" then l else l.filter (fun a => a.category == some c)
  | none => l

/-- `GET /news` (`get_news` in routes.py): optional category filter, order
by published date descending, then offset and limit. -/
def get_news (limit skip : Nat) (category : Option String) (s : Store) : List NewsArticle :=
  (((catFilter category s.articles).insertionSort pgDescGe).drop skip).take limit

/-- The news listing as the spec's words order it (nulls treated as
earliest); compared with `get_news`. -/
def get_news_spec (limit skip : Nat) (category : Option String) (s : Store) :
    List NewsArticle :=
  (((catFilter category s.articles).insertionSort specDescGe).drop skip).take limit

/-- `latitude IS NOT NULL AND longitude IS NOT NULL`. -/
def coordsPresent (a : NewsArticle) : Bool :=
  a.latitude.isSome && a.longitude.isSome

/-- The `/map-data` payload. -/
structure MapData where
  wind_farms : List WindFarm
  news_locations : List NewsArticle
  deriving DecidableEq, Repr

/-- `GET /map-data` (`get_map_data` in routes.py): every wind farm, plus the
first 50 located articles under the database's descending order. -/
def get_map_data (s : Store) : MapData :=
  { wind_farms := s.farms,
    news_locations := ((s.articles.filter coordsPresent).insertionSort pgDescGe).take 50 }

/-- The map payload as the spec's words select it (the 50 MOST RECENTLY
published located articles, unknown dates earliest); compared with
`get_map_data`. -/
def map_data_spec (s : Store) : MapData :=
  { wind_farms := s.farms,
    news_locations := ((s.articles.filter coordsPresent).insertionSort specDescGe).take 50 }

/-- The JSON body of `POST /wind-farms`: `farm_data: dict`, each key
optionally present. -/
structure FarmInput where
  name : Option String
  location : Option String
  latitude : Option Int
  longitude : Option Int
  capacity_mw : Option Int := none
  status : Option String := none
  operator : Option String := none
  description : Option String := none
  deriving DecidableEq, Repr

def emptyFarmInput : FarmInput :=
  { name := none, location := none, latitude := none, longitude := none }

/-- Python `dict[key]`: raises `KeyError(key)` when the key is absent. -/
def dictGet {α : Type} (v : Option α) (key : String) : Except PyExc α :=
  match v with
  | some x => .ok x
  | none => .error (.keyError key)

/-- `POST /wind-farms` (`create_wind_farm` in routes.py): the four required
keys are read with `dict[...]` in constructor-argument order, the optional
ones with `.get`; `status` defaults to `'planned'`; `created_at`/`updated_at`
are server-set.  A missing required key raises `KeyError` BEFORE anything is
added to the session, so nothing is inserted. -/
def create_wind_farm (now : Nat) (input : FarmInput) (s : Store) :
    Except PyExc (Store × WindFarm) := do
  let name ← dictGet input.name "name"
  let location ← dictGet input.location "location"
  let latitude ← dictGet input.latitude "latitude"
  let longitude ← dictGet input.longitude "longitude"
  let farm : WindFarm :=
    { id := s.nextFarmId, name := name, location := location, latitude := latitude,
      longitude := longitude, capacity_mw := input.capacity_mw,
      status := some (input.status.getD "planned"), operator := input.operator,
      description := input.description, created_at := some now, updated_at := some now }
  .ok ({ s with farms := s.farms ++ [farm], nextFarmId := s.nextFarmId + 1 }, farm)

/-- `GET /wind-farms/{farm_id}` (`get_wind_farm_by_id` in routes.py). -/
def get_wind_farm_by_id (fid : Nat) (s : Store) : Except PyExc WindFarm :=
  match s.farms.find? (fun f => f.id == fid) with
  | some f => .ok f
  | none => .error (.httpException 404 "Wind farm not found")

/-- The `/stats` payload the handler tries to build. -/
structure Stats where
  total_wind_farms : Nat
  operational_farms : Nat
  planned_farms : Nat
  total_capacity_mw : Int
  total_news_articles : Nat
  deriving DecidableEq, Repr

/-- The `func` attribute looked up on the SQLAlchemy `Session` object by
`db.func.sum(...)`: the `Session` class defines no such attribute (`db.func`
is a flask_sqlalchemy idiom), so the lookup raises `AttributeError`. -/
def sessionFuncAttr : Option Unit := none

/-- `GET /stats` (`get_statistics` in routes.py).  The four count queries
run fine; building the capacity sum then evaluates `db.func`, which raises.
The `some` branch shows the sum the code would build if the attribute
existed (`.scalar() or 0` makes an empty sum 0). -/
def get_statistics (s : Store) : Except PyExc Stats :=
  let total_farms := s.farms.length
  let total_news := s.articles.length
  let operational_farms := (s.farms.filter (fun f => f.status == some "operational")).length
  let planned_farms := (s.farms.filter (fun f => f.status == some "planned")).length
  match sessionFuncAttr with
  | none => .error (.attributeError "func")
  | some _ =>
    .ok { total_wind_farms := total_farms, operational_farms := operational_farms,
          planned_farms := planned_farms,
          total_capacity_mw := (s.farms.filterMap (fun f => f.capacity_mw)).sum,
          total_news_articles := total_news }

/-! ## Ingestion (`POST /news/scrape`) -/

/-- A `NewsArticle(...)` object staged with `db.add` but not yet flushed:
the url is whatever the scraped dict held, possibly `None`. -/
structure PendingArticle where
  title : String
  url : Option String
  source : Option String
  published_date : Option PyDateTime
  category : Option String
  scraped_at : Option Nat
  deriving DecidableEq, Repr

/-- The `NewsArticle(...)` constructor call in the scrape loop. -/
def pendOf (now : Nat) (r : RawArticle) : PendingArticle :=
  { title := r.title, url := r.url, source := some r.source,
    published_date := r.published_date, category := some r.category,
    scraped_at := some now }

/-- `db.query(NewsArticle).filter(NewsArticle.url == u).first()`.  The
session is built with `autoflush=False`, so the query sees only the rows
committed before the request — never records staged earlier in the same
loop; and SQL `url = NULL` matches no row. -/
def dbFindByUrl (s : Store) (u : Option String) : Option NewsArticle :=
  match u with
  | none => none
  | some url => s.articles.find? (fun a => a.url == url)

def storedUrls (s : Store) : List String :=
  s.articles.map (fun a => a.url)

/-- Whether the duplicate check of the scrape loop finds no existing row for
this record (so the record is staged and counted as newly saved). -/
def freshUrl (s : Store) (r : RawArticle) : Bool :=
  (dbFindByUrl s r.url).isNone

/-- The `for article_data in articles` loop of `scrape_news`
(routes.py lines 47-63): accumulates the staged inserts and `saved_count`,
checking every url against the pre-run store only. -/
def ingestLoop (now : Nat) (s : Store) (batch : List RawArticle) :
    List PendingArticle × Nat :=
  batch.foldl
    (fun acc r =>
      match dbFindByUrl s r.url with
      | some _ => acc
      | none => (acc.1 ++ [pendOf now r], acc.2 + 1))
    ([], 0)

/-- The row a staged insert with (non-null) url `u` produces: serial id,
server-set `created_at`. -/
def insertArticle (now : Nat) (s : Store) (p : PendingArticle) (u : String) : Store :=
  { s with
    articles := s.articles ++
      [{ id := s.nextArticleId, title := p.title, url := u, source := p.source,
         published_date := p.published_date, content := none, summary := none,
         wind_farm_name := none, location := none, latitude := none,
         longitude := none, category := p.category, scraped_at := p.scraped_at,
         created_at := some now }],
    nextArticleId := s.nextArticleId + 1 }

/-- `db.commit()`: flush the staged inserts in order.  The `url` column is
NOT NULL and UNIQUE, so a null url, or a url equal to an already stored one
(including one staged earlier in the same batch), raises `IntegrityError`. -/
def commitPending (now : Nat) (s : Store) : List PendingArticle → Except PyExc Store
  | [] => .ok s
  | p :: rest =>
    match p.url with
    | none => .error .integrityError
    | some u =>
      if u ∈ storedUrls s then .error .integrityError
      else commitPending now (insertArticle now s p u) rest

/-- The response of `POST /news/scrape`. -/
structure ScrapeReport where
  message : String
  total_scraped : Nat
  new_articles_saved : Nat
  deriving DecidableEq, Repr

/-- `POST /news/scrape` (`scrape_news` in routes.py), applied to the batch
the aggregating scraper returned: run the dedup/stage loop, commit once for
the whole batch, and report the counts. -/
def scrape_news (now : Nat) (batch : List RawArticle) (s : Store) :
    Except PyExc (Store × ScrapeReport) := do
  let staged := ingestLoop now s batch
  let s' ← commitPending now s staged.1
  .ok (s', { message := "News scraping completed", total_scraped := batch.length,
             new_articles_saved := staged.2 })

instance {ε α : Type} [DecidableEq ε] [DecidableEq α] : DecidableEq (Except ε α) := fun x y =>
  match x, y with
  | .ok a, .ok b =>
    if h : a = b then .isTrue (by rw [h]) else .isFalse (by simp [h])
  | .error e, .error f =>
    if h : e = f then .isTrue (by rw [h]) else .isFalse (by simp [h])
  | .ok _, .error _ => .isFalse (by simp)
  | .error _, .ok _ => .isFalse (by simp)

/-! ## Order-theoretic facts about the listing orders -/

instance : IsTotal NewsArticle pgDescGe :=
  ⟨fun a b => by
    simp only [pgDescGe, pgDescGeB]
    cases ha : newsKey a <;> cases hb : newsKey b <;> simp <;> omega⟩

instance : IsTrans NewsArticle pgDescGe :=
  ⟨fun a b c hab hbc => by
    simp only [pgDescGe, pgDescGeB] at *
    cases ha : newsKey a <;> cases hb : newsKey b <;> cases hc : newsKey c <;>
      simp_all <;> omega⟩

/-! ## Concrete inputs used to witness and refute the claims -/

def dtIsoExample : PyDateTime :=
  { year := 2024, month := 3, day := 15, hour := 10, tzOffsetMinutes := some 0 }

def dtDotExample : PyDateTime :=
  { year := 2024, month := 3, day := 15 }

/-- A string whose only `'Z'` is the time separator: `fromisoformat` accepts
any single separator character, so the string parses as given, but the
code's replace-ALL turns it into `2024-03-15+00:0010:00:00`, which does not
parse. -/
def zSepInput : String := "2024-03-15Z10:00:00"

def fullFarmInput : FarmInput :=
  { name := some "Baltica", location := some "Baltic Sea",
    latitude := some 55, longitude := some 17 }

def artDated : NewsArticle :=
  { id := 1, title := "a", url := "u1", source := none,
    published_date := some { year := 2024, month := 3, day := 15 },
    content := none, summary := none, wind_farm_name := none, location := none,
    latitude := none, longitude := none, category := some "news",
    scraped_at := none, created_at := none }

def artNull : NewsArticle :=
  { id := 2, title := "b", url := "u2", source := none, published_date := none,
    content := none, summary := none, wind_farm_name := none, location := none,
    latitude := none, longitude := none, category := some "news",
    scraped_at := none, created_at := none }

def storeC4 : Store :=
  { farms := [], articles := [artDated, artNull], nextFarmId := 1, nextArticleId := 3 }

def recDup : RawArticle :=
  { title := "t", url := some "https://example.com/a", source := "wnp.pl",
    published_date := none, category := "news" }

def artStored : NewsArticle :=
  { id := 1, title := "t", url := "https://example.com/a", source := some "wnp.pl",
    published_date := none, content := none, summary := none, wind_farm_name := none,
    location := none, latitude := none, longitude := none, category := some "news",
    scraped_at := some 0, created_at := some 0 }

def storeC9 : Store :=
  { farms := [], articles := [artStored], nextFarmId := 1, nextArticleId := 2 }

def wnpBadItem : WnpItem := { anchor := some { href := none, text := "bad" } }

def wnpGoodItem : WnpItem := { anchor := some { href := some "/art/1", text := "good" } }

def mkArtC7 (i : Nat) : NewsArticle :=
  { id := i + 1, title := "t", url := "u", source := none,
    published_date := some { year := 2024, month := 1, day := 1, minute := i },
    content := none, summary := none, wind_farm_name := none, location := none,
    latitude := some 0, longitude := some 0, category := some "news",
    scraped_at := none, created_at := none }

def artNullC7 : NewsArticle :=
  { id := 60, title := "n", url := "un", source := none, published_date := none,
    content := none, summary := none, wind_farm_name := none, location := none,
    latitude := some 0, longitude := some 0, category := some "news",
    scraped_at := none, created_at := none }

/-- Fifty dated located articles plus one located article with an unknown
publish date. -/
def storeC7 : Store :=
  { farms := [], articles := artNullC7 :: (List.range 50).map mkArtC7,
    nextFarmId := 1, nextArticleId := 61 }

/-- The row `create_wind_farm` builds once the four required keys resolved
to `n`, `l`, `la`, `lo`. -/
def createdFarm (now : Nat) (input : FarmInput) (s : Store) (n l : String)
    (la lo : Int) : WindFarm :=
  { id := s.nextFarmId, name := n, location := l, latitude := la, longitude := lo,
    capacity_mw := input.capacity_mw, status := some (input.status.getD "planned"),
    operator := input.operator, description := input.description,
    created_at := some now, updated_at := some now }

/-- The store after `create_wind_farm` committed the new row. -/
def createdStore (now : Nat) (input : FarmInput) (s : Store) (n l : String)
    (la lo : Int) : Store :=
  { s with farms := s.farms ++ [createdFarm now input s n l la lo],
           nextFarmId := s.nextFarmId + 1 }

/-- The report `scrape_news` returns for `[recDup]` against `storeC9`. -/
def repC9 : ScrapeReport :=
  { message := "News scraping completed", total_scraped := 1, new_articles_saved := 0 }

/-- The record `scrape_wnp` emits for `wnpGoodItem`. -/
def wnpGoodRec : RawArticle :=
  { title := "good", url := some "https://www.wnp.pl/art/1", source := "wnp.pl",
    published_date := none, category := "news" }

/-! ## General lemmas about the embedded operations -/

theorem except_bind_error {ε α β : Type} (e : ε) (f : α → Except ε β) :
    (Except.error e >>= f) = Except.error e := rfl

theorem except_bind_ok {ε α β : Type} (a : α) (f : α → Except ε β) :
    (Except.ok a >>= f) = f a := rfl

/-- Python's `startswith('http')` holds after prepending the wnp base
origin. -/
theorem pyStartsWith_wnp (u : String) :
    pyStartsWith ("https://www.wnp.pl" ++ u) "http" = true := by
  rw [pyStartsWith, List.isPrefixOf_iff_prefix, String.data_append]
  have h1 : "http".data <+: "https://www.wnp.pl".data :=
    List.isPrefixOf_iff_prefix.mp (by decide)
  exact h1.trans (List.prefix_append _ _)

/-- The extractor loop keeps exactly the items whose try-block produced a
record, in page order: raised items and non-matching items contribute
nothing. -/
theorem extractLoop_aux {ι : Type} (parse : ι → Except PyExc (Option RawArticle)) :
    ∀ (items : List ι) (acc : List RawArticle),
      items.foldl
        (fun acc it =>
          match parse it with
          | .ok (some r) => acc ++ [r]
          | .ok none => acc
          | .error _ => acc) acc
      = acc ++ items.filterMap (itemKept parse)
  | [], acc => by simp
  | it :: items, acc => by
    simp only [List.foldl_cons, List.filterMap_cons]
    cases h : parse it with
    | ok v =>
      cases v with
      | some r =>
        simp only [h, itemKept, extractLoop_aux parse items (acc ++ [r]), List.append_assoc,
          List.singleton_append]
      | none => simp only [h, itemKept, extractLoop_aux parse items acc]
    | error e => simp only [h, itemKept, extractLoop_aux parse items acc]

theorem extractLoop_eq {ι : Type} (parse : ι → Except PyExc (Option RawArticle))
    (items : List ι) :
    extractLoop parse items = items.filterMap (itemKept parse) := by
  rw [extractLoop, extractLoop_aux]
  simp

/-- SQL `url = :u` finds no row exactly when `u` is not among the stored
urls. -/
theorem dbFindByUrl_none_iff (s : Store) (u : String) :
    dbFindByUrl s (some u) = none ↔ u ∉ storedUrls s := by
  simp only [dbFindByUrl, storedUrls, List.find?_eq_none, List.mem_map, beq_iff_eq]
  constructor
  · rintro h ⟨a, ha, rfl⟩
    exact h a ha rfl
  · intro h a ha hau
    exact h ⟨a, ha, hau⟩

theorem freshUrl_some_iff (s : Store) (r : RawArticle) (u : String) (h : r.url = some u) :
    freshUrl s r = true ↔ u ∉ storedUrls s := by
  rw [freshUrl, h, Option.isNone_iff_eq_none, dbFindByUrl_none_iff]

/-- Closed form of the dedup/stage loop: it stages the records whose url is
absent from the PRE-RUN store (in order, with multiplicity) and counts
them. -/
theorem ingestLoop_aux (now : Nat) (s : Store) :
    ∀ (batch : List RawArticle) (l : List PendingArticle) (n : Nat),
      batch.foldl
        (fun acc r =>
          match dbFindByUrl s r.url with
          | some _ => acc
          | none => (acc.1 ++ [pendOf now r], acc.2 + 1)) (l, n)
      = (l ++ ((batch.filter (freshUrl s)).map (pendOf now)),
         n + batch.countP (freshUrl s))
  | [], l, n => by simp
  | r :: batch, l, n => by
    simp only [List.foldl_cons, List.filter_cons, List.countP_cons]
    cases h : dbFindByUrl s r.url with
    | some a =>
      have hf : freshUrl s r = false := by rw [freshUrl, h]; rfl
      simp only [h, hf, ingestLoop_aux now s batch l n, Bool.false_eq_true, if_false,
        cond_false]
      simp
    | none =>
      have hf : freshUrl s r = true := by rw [freshUrl, h]; rfl
      simp only [h, hf, ingestLoop_aux now s batch (l ++ [pendOf now r]) (n + 1),
        if_true, cond_true]
      simp only [List.map_cons, List.append_assoc, List.singleton_append,
        Prod.mk.injEq]
      exact ⟨trivial, by omega⟩

theorem ingestLoop_eq (now : Nat) (s : Store) (batch : List RawArticle) :
    ingestLoop now s batch =
      ((batch.filter (freshUrl s)).map (pendOf now), batch.countP (freshUrl s)) := by
  rw [ingestLoop, ingestLoop_aux]
  simp

theorem storedUrls_insertArticle (now : Nat) (s : Store) (p : PendingArticle) (u : String) :
    storedUrls (insertArticle now s p u) = storedUrls s ++ [u] := by
  simp [insertArticle, storedUrls]

/-- Committing a batch of staged inserts whose urls are present, pairwise
distinct, and fresh with respect to the store succeeds and appends exactly
those urls. -/
theorem commitPending_ok (now : Nat) :
    ∀ (ps : List PendingArticle) (s : Store),
      (∀ p ∈ ps, ∃ u, p.url = some u ∧ u ∉ storedUrls s) →
      ps.Pairwise (fun p q => p.url ≠ q.url) →
      ∃ s', commitPending now s ps = .ok s' ∧
        storedUrls s' = storedUrls s ++ ps.filterMap (fun p => p.url)
  | [], s, _, _ => ⟨s, rfl, by simp⟩
  | p :: rest, s, hfresh, hpw => by
    obtain ⟨u, hu, hmem⟩ := hfresh p (List.mem_cons_self _ _)
    obtain ⟨hhead, htail⟩ := List.pairwise_cons.mp hpw
    have hrest : ∀ q ∈ rest, ∃ v, q.url = some v ∧
        v ∉ storedUrls (insertArticle now s p u) := by
      intro q hq
      obtain ⟨v, hv, hvmem⟩ := hfresh q (List.mem_cons_of_mem _ hq)
      refine ⟨v, hv, ?_⟩
      rw [storedUrls_insertArticle]
      intro hvin
      rcases List.mem_append.mp hvin with h | h
      · exact hvmem h
      · have : v = u := by simpa using h
        exact hhead q hq (by rw [hu, hv, this])
    obtain ⟨s', hok, hurls⟩ :=
      commitPending_ok now rest (insertArticle now s p u) hrest htail
    refine ⟨s', ?_, ?_⟩
    · simp only [commitPending, hu]
      rw [if_neg hmem]
      exact hok
    · rw [hurls, storedUrls_insertArticle, List.filterMap_cons, hu, List.append_assoc,
        List.singleton_append]

/-- Evaluation of `create_wind_farm` when all four required keys are
present. -/
theorem create_wind_farm_eq (now : Nat) (input : FarmInput) (s : Store)
    (n l : String) (la lo : Int)
    (hn : input.name = some n) (hl : input.location = some l)
    (hla : input.latitude = some la) (hlo : input.longitude = some lo) :
    create_wind_farm now input s =
      .ok (createdStore now input s n l la lo, createdFarm now input s n l la lo) := by
  simp only [create_wind_farm, dictGet, hn, hl, hla, hlo, except_bind_ok, createdFarm,
    createdStore]

/-- Pairwise-distinct urls stay distinct after extracting them. -/
theorem nodup_filterMap_url :
    ∀ (ps : List RawArticle), ps.Pairwise (fun a b => a.url ≠ b.url) →
      (ps.filterMap (fun r => r.url)).Nodup
  | [], _ => List.nodup_nil
  | r :: ps, h => by
    obtain ⟨hhead, htail⟩ := List.pairwise_cons.mp h
    cases hu : r.url with
    | none => simpa [List.filterMap_cons, hu] using nodup_filterMap_url ps htail
    | some u =>
      rw [List.filterMap_cons, hu]
      refine List.nodup_cons.mpr ⟨?_, nodup_filterMap_url ps htail⟩
      intro hmem
      obtain ⟨q, hq, hqu⟩ := List.mem_filterMap.mp hmem
      exact hhead q hq (by rw [hu, hqu])

/-! ## Claim theorems -/

/-- C1: `GET /stats` is meant to return the total farm count, the counts of
operational and planned farms, the capacity sum over non-null capacities
(0 when none), and the article count.  The code instead evaluates `db.func`
on the SQLAlchemy `Session`, which has no attribute `func`: for EVERY store
state the handler raises `AttributeError` (an HTTP 500) and never returns
the statistics. -/
theorem c1_stats_always_raises (s : Store) :
    get_statistics s = .error (.attributeError "func") := rfl

/-- C2, counterexample to the claim as stated: a creation input missing the
required fields fails with `KeyError`, which FastAPI surfaces as a 500
server error, NOT as a 400-class client-input error. -/
theorem c2_counterexample :
    create_wind_farm 0 emptyFarmInput emptyStore = .error (.keyError "name") ∧
    isClientError (.keyError "name") = false ∧ statusOf (.keyError "name") = 500 :=
  ⟨rfl, rfl, rfl⟩

/-- C2, amended: an input lacking one of name/location/latitude/longitude
makes the create operation fail with a `KeyError` — surfaced as a 500-class
server error, not a 400-class one — raised before anything is staged, so no
record is inserted; an input with all four present succeeds. -/
theorem c2_required_fields (now : Nat) (input : FarmInput) (s : Store) :
    ((input.name = none ∨ input.location = none ∨ input.latitude = none ∨
        input.longitude = none) →
      ∃ k, create_wind_farm now input s = .error (.keyError k) ∧
        statusOf (.keyError k) = 500 ∧ isClientError (.keyError k) = false) ∧
    (input.name ≠ none → input.location ≠ none → input.latitude ≠ none →
      input.longitude ≠ none →
      ∃ s' farm, create_wind_farm now input s = .ok (s', farm)) := by
  constructor
  · intro hmiss
    cases hn : input.name with
    | none =>
      exact ⟨"name", by simp only [create_wind_farm, dictGet, hn, except_bind_error], rfl, rfl⟩
    | some n =>
      cases hl : input.location with
      | none =>
        exact ⟨"location",
          by simp only [create_wind_farm, dictGet, hn, hl, except_bind_ok,
            except_bind_error], rfl, rfl⟩
      | some l =>
        cases hla : input.latitude with
        | none =>
          exact ⟨"latitude",
            by simp only [create_wind_farm, dictGet, hn, hl, hla, except_bind_ok,
              except_bind_error], rfl, rfl⟩
        | some la =>
          cases hlo : input.longitude with
          | none =>
            exact ⟨"longitude",
              by simp only [create_wind_farm, dictGet, hn, hl, hla, hlo, except_bind_ok,
                except_bind_error], rfl, rfl⟩
          | some lo => simp_all
  · intro h1 h2 h3 h4
    obtain ⟨n, hn⟩ := Option.ne_none_iff_exists'.mp h1
    obtain ⟨l, hl⟩ := Option.ne_none_iff_exists'.mp h2
    obtain ⟨la, hla⟩ := Option.ne_none_iff_exists'.mp h3
    obtain ⟨lo, hlo⟩ := Option.ne_none_iff_exists'.mp h4
    exact ⟨_, _, create_wind_farm_eq now input s n l la lo hn hl hla hlo⟩

/-- C2, witness: both branches of the amended claim at concrete inputs. -/
theorem c2_required_fields_witness :
    (∃ k, create_wind_farm 0 emptyFarmInput emptyStore = .error (.keyError k) ∧
      statusOf (.keyError k) = 500 ∧ isClientError (.keyError k) = false) ∧
    (∃ s' farm, create_wind_farm 0 fullFarmInput emptyStore = .ok (s', farm)) :=
  ⟨(c2_required_fields 0 emptyFarmInput emptyStore).1 (Or.inl rfl),
   (c2_required_fields 0 fullFarmInput emptyStore).2 (by decide) (by decide) (by decide)
     (by decide)⟩

/-- C3, counterexample to the claim as stated: the code replaces EVERY
`'Z'`, not only a trailing one.  `fromisoformat` accepts any single
character as the date-time separator, so `"2024-03-15Z10:00:00"` parses as
given (what the spec's trailing-only wording predicts), while the code's
replace-all mangles it to `"2024-03-15+00:0010:00:00"` and the parser
returns the could-not-parse result. -/
theorem c3_counterexample :
    parse_date (some zSepInput) = .ok none ∧
    parse_date_spec (some zSepInput) =
      .ok (some { year := 2024, month := 3, day := 15, hour := 10 }) ∧
    parse_date (some zSepInput) ≠ parse_date_spec (some zSepInput) := by
  refine ⟨rfl, rfl, ?_⟩
  decide

/-- C3, amended: the date parser never raises; it first attempts ISO-8601
parsing with EVERY occurrence of `'Z'` replaced by `'+00:00'`; on failure it
tries, in order, `%Y-%m-%d`, `%d-%m-%Y`, `%d.%m.%Y`, returning the first
match; if all fail it returns the could-not-parse result.  In particular
`"2024-03-15T10:00:00Z"` parses to 2024-03-15T10:00:00 UTC, `"15.03.2024"`
to 2024-03-15, and `"not-a-date"` to the could-not-parse result. -/
theorem c3_date_parsing :
    (∀ s : Option String, ∃ v, parse_date s = .ok v) ∧
    parse_date (some "2024-03-15T10:00:00Z") = .ok (some dtIsoExample) ∧
    parse_date (some "15.03.2024") = .ok (some dtDotExample) ∧
    parse_date (some "not-a-date") = .ok none ∧
    (∀ s d, fromisoformat (replaceZ s) = .ok d → parse_date (some s) = .ok (some d)) ∧
    (∀ s d, fromisoformat (replaceZ s) = .error .valueError → strptimeYMD s = .ok d →
      parse_date (some s) = .ok (some d)) ∧
    (∀ s d, fromisoformat (replaceZ s) = .error .valueError →
      strptimeYMD s = .error .valueError → strptimeDMY '-' s = .ok d →
      parse_date (some s) = .ok (some d)) ∧
    (∀ s d, fromisoformat (replaceZ s) = .error .valueError →
      strptimeYMD s = .error .valueError → strptimeDMY '-' s = .error .valueError →
      strptimeDMY '.' s = .ok d → parse_date (some s) = .ok (some d)) ∧
    (∀ s, fromisoformat (replaceZ s) = .error .valueError →
      strptimeYMD s = .error .valueError → strptimeDMY '-' s = .error .valueError →
      strptimeDMY '.' s = .error .valueError → parse_date (some s) = .ok none) := by
  refine ⟨?_, rfl, rfl, rfl, ?_, ?_, ?_, ?_, ?_⟩
  · intro s
    cases s with
    | none => exact ⟨none, rfl⟩
    | some str =>
      by_cases h : str = ""
      · exact ⟨none, by subst h; rfl⟩
      · simp only [parse_date]
        rw [if_neg h]
        cases h1 : fromisoformat (replaceZ str) with
        | ok d => exact ⟨some d, rfl⟩
        | error _ =>
          cases h2 : strptimeYMD str with
          | ok d => exact ⟨some d, rfl⟩
          | error _ =>
            cases h3 : strptimeDMY '-' str with
            | ok d => exact ⟨some d, rfl⟩
            | error _ =>
              cases h4 : strptimeDMY '.' str with
              | ok d => exact ⟨some d, rfl⟩
              | error _ => exact ⟨none, rfl⟩
  · intro s d h
    by_cases hs : s = ""
    · subst hs
      rw [show fromisoformat (replaceZ "") = .error .valueError from rfl] at h
      simp at h
    · simp only [parse_date]
      rw [if_neg hs, h]
  · intro s d h1 h2
    by_cases hs : s = ""
    · subst hs
      rw [show strptimeYMD "" = .error .valueError from rfl] at h2
      simp at h2
    · simp only [parse_date]
      rw [if_neg hs, h1, h2]
  · intro s d h1 h2 h3
    by_cases hs : s = ""
    · subst hs
      rw [show strptimeDMY '-' "" = .error .valueError from rfl] at h3
      simp at h3
    · simp only [parse_date]
      rw [if_neg hs, h1, h2, h3]
  · intro s d h1 h2 h3 h4
    by_cases hs : s = ""
    · subst hs
      rw [show strptimeDMY '.' "" = .error .valueError from rfl] at h4
      simp at h4
    · simp only [parse_date]
      rw [if_neg hs, h1, h2, h3, h4]
  · intro s h1 h2 h3 h4
    by_cases hs : s = ""
    · subst hs
      rfl
    · simp only [parse_date]
      rw [if_neg hs, h1, h2, h3, h4]

/-- C3, witness: each fallback stage of the amended claim exercised at a
concrete input. -/
theorem c3_date_parsing_witness :
    parse_date (some "2024-03-15") = .ok (some { year := 2024, month := 3, day := 15 }) ∧
    parse_date (some "2024-3-15") = .ok (some { year := 2024, month := 3, day := 15 }) ∧
    parse_date (some "15-03-2024") = .ok (some { year := 2024, month := 3, day := 15 }) ∧
    parse_date (some "15.03.2024") = .ok (some dtDotExample) ∧
    parse_date (some "nope") = .ok none :=
  ⟨c3_date_parsing.2.2.2.2.1 "2024-03-15" _ rfl,
   c3_date_parsing.2.2.2.2.2.1 "2024-3-15" _ rfl rfl,
   c3_date_parsing.2.2.2.2.2.2.1 "15-03-2024" _ rfl rfl rfl,
   c3_date_parsing.2.2.2.2.2.2.2.1 "15.03.2024" _ rfl rfl rfl rfl,
   c3_date_parsing.2.2.2.2.2.2.2.2 "nope" rfl rfl rfl rfl⟩

/-- C4, counterexample to the claim as stated: under the shipped PostgreSQL
backend, `ORDER BY published_date DESC` places NULL dates FIRST, not last:
with one dated and one null-dated article the code lists the null one first,
while the spec's nulls-as-earliest order lists it last. -/
theorem c4_counterexample :
    get_news 50 0 none storeC4 = [artNull, artDated] ∧
    get_news_spec 50 0 none storeC4 = [artDated, artNull] ∧
    get_news 50 0 none storeC4 ≠ get_news_spec 50 0 none storeC4 := by
  decide

/-- C4, amended: the listing returns the `skip`/`limit` window of the
category-filtered articles ordered by published date descending with
null/unknown dates treated as LATEST (they sort above every date, so they
appear FIRST in the descending order), and the returned window itself is
sorted that way. -/
theorem c4_news_listing (limit skip : Nat) (category : Option String) (s : Store) :
    ∃ l : List NewsArticle,
      l.Perm (catFilter category s.articles) ∧ List.Sorted pgDescGe l ∧
      get_news limit skip category s = (l.drop skip).take limit ∧
      List.Sorted pgDescGe (get_news limit skip category s) := by
  refine ⟨(catFilter category s.articles).insertionSort pgDescGe,
    List.perm_insertionSort _ _, List.sorted_insertionSort _ _, rfl, ?_⟩
  exact List.Pairwise.sublist ((List.take_sublist _ _).trans (List.drop_sublist _ _))
    (List.sorted_insertionSort _ _)

/-- C5, counterexample to the claim as stated: a batch that carries the same
not-yet-stored url twice stages both copies (the dedup query sees only the
pre-run store), and the single whole-batch commit then violates the UNIQUE
constraint on `url`: the operation raises `IntegrityError` (an HTTP 500)
instead of reporting the counts the claim promises. -/
theorem c5_counterexample :
    scrape_news 0 [recDup, recDup] emptyStore = .error .integrityError := by
  decide

/-- C5, amended: provided every record of the batch has a non-null url and
no two to-be-inserted (fresh) records share a url, ingestion skips each
record whose url already exists, reports `total_scraped` = batch length and
`new_articles_saved` = the number of records whose url is absent from the
pre-run store, appends exactly the fresh urls; a url not stored before
ends up stored exactly once, and re-ingesting the same batch reports zero
new articles and leaves the store unchanged. -/
theorem c5_ingest_dedup (now now2 : Nat) (batch : List RawArticle) (s : Store)
    (hnn : ∀ r ∈ batch, r.url ≠ none)
    (hdup : (batch.filter (freshUrl s)).Pairwise (fun r1 r2 => r1.url ≠ r2.url)) :
    ∃ s', scrape_news now batch s =
        .ok (s', { message := "News scraping completed", total_scraped := batch.length,
                   new_articles_saved := batch.countP (freshUrl s) }) ∧
      storedUrls s' = storedUrls s ++ (batch.filter (freshUrl s)).filterMap (fun r => r.url) ∧
      (∀ u : String, u ∉ storedUrls s → some u ∈ batch.map (fun r => r.url) →
        (storedUrls s').count u = 1) ∧
      scrape_news now2 batch s' =
        .ok (s', { message := "News scraping completed", total_scraped := batch.length,
                   new_articles_saved := 0 }) := by
  have hstaged : ∀ p ∈ (batch.filter (freshUrl s)).map (pendOf now),
      ∃ u, p.url = some u ∧ u ∉ storedUrls s := by
    intro p hp
    obtain ⟨r, hr, rfl⟩ := List.mem_map.mp hp
    have hrb : r ∈ batch := (List.mem_filter.mp hr).1
    have hfr : freshUrl s r = true := (List.mem_filter.mp hr).2
    obtain ⟨u, hu⟩ := Option.ne_none_iff_exists'.mp (hnn r hrb)
    exact ⟨u, hu, (freshUrl_some_iff s r u hu).mp hfr⟩
  have hpw : ((batch.filter (freshUrl s)).map (pendOf now)).Pairwise
      (fun p q => p.url ≠ q.url) := by
    rw [List.pairwise_map]
    exact hdup
  obtain ⟨s', hcommit, hurls⟩ :=
    commitPending_ok now ((batch.filter (freshUrl s)).map (pendOf now)) s hstaged hpw
  have hurls' : storedUrls s' =
      storedUrls s ++ (batch.filter (freshUrl s)).filterMap (fun r => r.url) := by
    rw [hurls, List.filterMap_map]
    rfl
  refine ⟨s', ?_, hurls', ?_, ?_⟩
  · simp only [scrape_news, ingestLoop_eq]
    rw [hcommit, except_bind_ok]
  · intro u hu humem
    obtain ⟨r, hrb, hru⟩ := List.mem_map.mp humem
    have hfr : freshUrl s r = true := (freshUrl_some_iff s r u hru).mpr hu
    have hrf : r ∈ batch.filter (freshUrl s) := List.mem_filter.mpr ⟨hrb, hfr⟩
    have humem2 : u ∈ (batch.filter (freshUrl s)).filterMap (fun r => r.url) :=
      List.mem_filterMap.mpr ⟨r, hrf, hru⟩
    rw [hurls', List.count_append, List.count_eq_zero_of_not_mem hu,
      List.count_eq_one_of_mem (nodup_filterMap_url _ hdup) humem2]
  · have hall : ∀ r ∈ batch, freshUrl s' r = false := by
      intro r hrb
      obtain ⟨u, hu⟩ := Option.ne_none_iff_exists'.mp (hnn r hrb)
      have hin : u ∈ storedUrls s' := by
        rw [hurls']
        cases hf : freshUrl s r with
        | true =>
          exact List.mem_append_right _
            (List.mem_filterMap.mpr ⟨r, List.mem_filter.mpr ⟨hrb, hf⟩, hu⟩)
        | false =>
          refine List.mem_append_left _ ?_
          by_contra hcon
          have := (freshUrl_some_iff s r u hu).mpr hcon
          rw [hf] at this
          simp at this
      exact Bool.eq_false_iff.mpr
        (fun htrue => ((freshUrl_some_iff s' r u hu).mp htrue) hin)
    have hfilter : batch.filter (freshUrl s') = [] :=
      List.filter_eq_nil_iff.mpr (fun a ha => by simp [hall a ha])
    have hcount : batch.countP (freshUrl s') = 0 :=
      List.countP_eq_zero.mpr (fun a ha => by simp [hall a ha])
    simp only [scrape_news, ingestLoop_eq, hfilter, hcount, List.map_nil]
    rw [show commitPending now2 s' [] = .ok s' from rfl, except_bind_ok]

/-- C5, witness: the amended claim at a one-record batch against the empty
store. -/
theorem c5_ingest_dedup_witness :
    ∃ s', scrape_news 0 [recDup] emptyStore =
        .ok (s', { message := "News scraping completed",
                   total_scraped := [recDup].length,
                   new_articles_saved := [recDup].countP (freshUrl emptyStore) }) ∧
      storedUrls s' = storedUrls emptyStore ++
        ([recDup].filter (freshUrl emptyStore)).filterMap (fun r => r.url) ∧
      (∀ u : String, u ∉ storedUrls emptyStore → some u ∈ [recDup].map (fun r => r.url) →
        (storedUrls s').count u = 1) ∧
      scrape_news 1 [recDup] s' =
        .ok (s', { message := "News scraping completed",
                   total_scraped := [recDup].length, new_articles_saved := 0 }) :=
  c5_ingest_dedup 0 1 [recDup] emptyStore (by decide) (by decide)

/-- C6: a whole-site fetch failure yields the empty list for that site and
stops there; every extractor keeps exactly the items (among the first ten
matched elements) whose try-block produced a record; an item whose parse
raises is skipped without aborting the rest of the page; and `scrape_all`
is always the concatenation of the three sites' surviving results — no
exception escapes any extractor. -/
theorem c6_failure_policy (f1 : Fetch GramItem) (f2 : Fetch WysokieItem) (f3 : Fetch WnpItem)
    (xs ys : List WnpItem) (bad : WnpItem)
    (hbad : ∃ e, wnpItemValue bad = .error e)
    (hlen : xs.length + 1 + ys.length ≤ 10) :
    scrape_all f1 f2 f3 =
      scrape_gramwzielone f1 ++ scrape_wysokienapiecie f2 ++ scrape_wnp f3 ∧
    scrape_gramwzielone .fail = [] ∧
    scrape_wysokienapiecie .fail = [] ∧
    scrape_wnp .fail = [] ∧
    (∀ items : List GramItem, scrape_gramwzielone (.page items)
      = (items.take 10).filterMap (itemKept gramItemValue)) ∧
    (∀ items : List WysokieItem, scrape_wysokienapiecie (.page items)
      = (items.take 10).filterMap (itemKept wysokieItemValue)) ∧
    (∀ items : List WnpItem, scrape_wnp (.page items)
      = (items.take 10).filterMap (itemKept wnpItemValue)) ∧
    scrape_wnp (.page (xs ++ bad :: ys)) = scrape_wnp (.page xs) ++ scrape_wnp (.page ys) := by
  obtain ⟨e, he⟩ := hbad
  refine ⟨rfl, rfl, rfl, rfl, fun items => extractLoop_eq _ _, fun items => extractLoop_eq _ _,
    fun items => extractLoop_eq _ _, ?_⟩
  have h1 : xs.length ≤ 10 := by omega
  have h2 : ys.length ≤ 10 := by omega
  have h3 : (xs ++ bad :: ys).length ≤ 10 := by
    simp only [List.length_append, List.length_cons]
    omega
  show extractLoop wnpItemValue ((xs ++ bad :: ys).take 10)
      = extractLoop wnpItemValue (xs.take 10) ++ extractLoop wnpItemValue (ys.take 10)
  rw [List.take_of_length_le h3, List.take_of_length_le h1, List.take_of_length_le h2,
    extractLoop_eq, extractLoop_eq, extractLoop_eq, List.filterMap_append,
    List.filterMap_cons]
  simp [itemKept, he]

/-- C6, witness: site A and B down, and a wnp page whose first item raises
(anchor without `href`) while the second survives. -/
theorem c6_failure_policy_witness :
    scrape_wnp (.page ([] ++ wnpBadItem :: [wnpGoodItem])) =
      scrape_wnp (.page []) ++ scrape_wnp (.page [wnpGoodItem]) :=
  (c6_failure_policy .fail .fail .fail [] [wnpGoodItem] wnpBadItem
    ⟨.attributeError "startswith", rfl⟩ (by decide)).2.2.2.2.2.2.2

/-- C7, counterexample to the claim as stated: with 51 located articles of
which one has a null publish date, the 50 articles the code returns are NOT
the 50 most recently published — PostgreSQL's `DESC` order puts the
null-dated article first, so it displaces the oldest dated one. -/
theorem c7_counterexample :
    artNullC7 ∈ (get_map_data storeC7).news_locations ∧
    artNullC7 ∉ (map_data_spec storeC7).news_locations := by
  decide

/-- C7, amended: map-data returns ALL wind farms plus at most 50 articles
with both coordinates non-null, taken from the front of the
descending-by-published-date order in which null/unknown dates sort FIRST
(so they take precedence over the most recently published); the article
subset is contained in the unpaginated news listing restricted to non-null
coordinates. -/
theorem c7_map_data (s : Store) (a : NewsArticle)
    (ha : a ∈ (get_map_data s).news_locations) :
    (get_map_data s).wind_farms = s.farms ∧
    (get_map_data s).news_locations.length ≤ 50 ∧
    (∃ l, l.Perm (s.articles.filter coordsPresent) ∧ List.Sorted pgDescGe l ∧
      (get_map_data s).news_locations = l.take 50) ∧
    coordsPresent a = true ∧
    a ∈ (get_news s.articles.length 0 none s).filter coordsPresent := by
  have hmem : a ∈ (s.articles.filter coordsPresent).insertionSort pgDescGe :=
    List.mem_of_mem_take ha
  have hmem2 : a ∈ s.articles.filter coordsPresent := by simpa using hmem
  have hcoords : coordsPresent a = true := (List.mem_filter.mp hmem2).2
  have hga : a ∈ s.articles := (List.mem_filter.mp hmem2).1
  have hnews : get_news s.articles.length 0 none s = s.articles.insertionSort pgDescGe := by
    show ((s.articles.insertionSort pgDescGe).drop 0).take s.articles.length = _
    rw [List.drop_zero]
    exact List.take_of_length_le (le_of_eq (List.length_insertionSort _ _))
  refine ⟨rfl, List.length_take_le _ _,
    ⟨_, List.perm_insertionSort _ _, List.sorted_insertionSort _ _, rfl⟩, hcoords, ?_⟩
  rw [hnews]
  exact List.mem_filter.mpr ⟨by simpa using hga, hcoords⟩

/-- C7, witness: the amended claim at the 51-article store, at the
null-dated article the code includes. -/
theorem c7_map_data_witness :
    (get_map_data storeC7).wind_farms = storeC7.farms ∧
    (get_map_data storeC7).news_locations.length ≤ 50 ∧
    (∃ l, l.Perm (storeC7.articles.filter coordsPresent) ∧ List.Sorted pgDescGe l ∧
      (get_map_data storeC7).news_locations = l.take 50) ∧
    coordsPresent artNullC7 = true ∧
    artNullC7 ∈ (get_news storeC7.articles.length 0 none storeC7).filter coordsPresent :=
  c7_map_data storeC7 artNullC7 (by decide)

/-- C8: creating a wind farm whose input carries the four required fields
and fetching the returned id yields a row with exactly the input's values,
status defaulting to `'planned'` when omitted, and a non-null (server-set)
`created_at`. -/
theorem c8_create_roundtrip (now : Nat) (input : FarmInput) (s : Store)
    (hwf : StoreWF s) (n l : String) (la lo : Int)
    (hn : input.name = some n) (hl : input.location = some l)
    (hla : input.latitude = some la) (hlo : input.longitude = some lo) :
    ∃ s' farm, create_wind_farm now input s = .ok (s', farm) ∧
      get_wind_farm_by_id farm.id s' = .ok farm ∧
      farm.name = n ∧ farm.location = l ∧ farm.latitude = la ∧ farm.longitude = lo ∧
      farm.capacity_mw = input.capacity_mw ∧ farm.operator = input.operator ∧
      farm.description = input.description ∧
      farm.status = some (input.status.getD "planned") ∧
      (input.status = none → farm.status = some "planned") ∧
      farm.created_at = some now := by
  refine ⟨createdStore now input s n l la lo, createdFarm now input s n l la lo,
    create_wind_farm_eq now input s n l la lo hn hl hla hlo, ?_, rfl, rfl, rfl, rfl,
    rfl, rfl, rfl, rfl, ?_, rfl⟩
  · unfold get_wind_farm_by_id createdStore
    rw [List.find?_append]
    have h1 : s.farms.find?
        (fun f => f.id == (createdFarm now input s n l la lo).id) = none := by
      rw [List.find?_eq_none]
      intro f hf
      have := hwf f hf
      simp only [createdFarm, beq_iff_eq]
      omega
    rw [h1]
    simp [createdFarm]
  · intro h
    simp [createdFarm, h]

/-- C8, witness: the round trip on the empty store with the scenario input
from the spec. -/
theorem c8_create_roundtrip_witness :
    ∃ s' farm, create_wind_farm 7 fullFarmInput emptyStore = .ok (s', farm) ∧
      get_wind_farm_by_id farm.id s' = .ok farm ∧
      farm.name = "Baltica" ∧ farm.location = "Baltic Sea" ∧ farm.latitude = 55 ∧
      farm.longitude = 17 ∧ farm.capacity_mw = fullFarmInput.capacity_mw ∧
      farm.operator = fullFarmInput.operator ∧
      farm.description = fullFarmInput.description ∧
      farm.status = some (fullFarmInput.status.getD "planned") ∧
      (fullFarmInput.status = none → farm.status = some "planned") ∧
      farm.created_at = some 7 :=
  c8_create_roundtrip 7 fullFarmInput emptyStore
    (fun f hf => absurd hf (by simp [emptyStore])) "Baltica" "Baltic Sea" 55 17
    rfl rfl rfl rfl

/-- C9: the dedup check of the scrape loop consults only the committed
pre-run store (the session has `autoflush=False`), never records staged
earlier in the same batch: the loop stages every record whose url is absent
from the initial store, with multiplicity, and `saved_count` is exactly
that number — a url occurring twice in one batch is counted (and staged)
twice; whenever the endpoint does return, its `new_articles_saved` equals
that count and `total_scraped` the batch length. -/
theorem c9_dedup_pre_run_store :
    (∀ (now : Nat) (s : Store) (batch : List RawArticle),
      ingestLoop now s batch =
        ((batch.filter (freshUrl s)).map (pendOf now), batch.countP (freshUrl s))) ∧
    (∀ (now : Nat) (batch : List RawArticle) (s : Store) (out : Store × ScrapeReport),
      scrape_news now batch s = .ok out →
        out.2.total_scraped = batch.length ∧
        out.2.new_articles_saved = batch.countP (freshUrl s)) := by
  refine ⟨fun now s batch => ingestLoop_eq now s batch, ?_⟩
  intro now batch s out h
  simp only [scrape_news] at h
  cases hc : commitPending now s (ingestLoop now s batch).1 with
  | error e =>
    rw [hc, except_bind_error] at h
    simp at h
  | ok s2 =>
    rw [hc, except_bind_ok] at h
    simp only [Except.ok.injEq] at h
    subst h
    exact ⟨rfl, by show (ingestLoop now s batch).2 = _; rw [ingestLoop_eq]⟩

/-- C9, witness: a batch whose url is already stored is reported as not
new. -/
theorem c9_dedup_pre_run_store_witness :
    (storeC9, repC9).2.total_scraped = [recDup].length ∧
    (storeC9, repC9).2.new_articles_saved = [recDup].countP (freshUrl storeC9) :=
  c9_dedup_pre_run_store.2 0 [recDup] storeC9 (storeC9, repC9) (by decide)

/-- C10: every record the wnp extractor emits has a url starting with
`http` (relative urls get the base origin `https://www.wnp.pl` prepended),
a null published date, source `wnp.pl` and category `news`. -/
theorem c10_wnp_extract_invariants (f : Fetch WnpItem) (r : RawArticle)
    (hr : r ∈ scrape_wnp f) :
    (∃ u, r.url = some u ∧ pyStartsWith u "http" = true) ∧
    r.published_date = none ∧ r.source = "wnp.pl" ∧ r.category = "news" := by
  cases f with
  | fail => simp [scrape_wnp] at hr
  | page items =>
    rw [scrape_wnp, extractLoop_eq] at hr
    obtain ⟨it, -, hit⟩ := List.mem_filterMap.mp hr
    cases hanchor : it.anchor with
    | none =>
      simp only [itemKept, wnpItemValue, hanchor] at hit
      simp at hit
    | some a =>
      cases hhref : a.href with
      | none =>
        simp only [itemKept, wnpItemValue, hanchor, hhref] at hit
        simp at hit
      | some u =>
        simp only [itemKept, wnpItemValue, hanchor, hhref, Option.some.injEq] at hit
        subst hit
        by_cases hsw : pyStartsWith u "http" = true
        · exact ⟨⟨u, by simp [hsw], hsw⟩, rfl, rfl, rfl⟩
        · have hsw' : pyStartsWith u "http" = false := Bool.eq_false_iff.mpr hsw
          exact ⟨⟨"https://www.wnp.pl" ++ u, by simp [hsw'], pyStartsWith_wnp u⟩,
            rfl, rfl, rfl⟩

/-- C10, witness: the record emitted for a relative-url item. -/
theorem c10_wnp_extract_invariants_witness :
    (∃ u, wnpGoodRec.url = some u ∧ pyStartsWith u "http" = true) ∧
    wnpGoodRec.published_date = none ∧ wnpGoodRec.source = "wnp.pl" ∧
    wnpGoodRec.category = "news" :=
  c10_wnp_extract_invariants (.page [wnpBadItem, wnpGoodItem]) wnpGoodRec (by decide)

end WindResearcher
